import Mathlib

/-!
Shallow embedding of the per-user RAG backend core
(`app/services/vector_store.py`, `app/services/db_service.py`,
`app/routers/api.py`) and proofs about it.

Conventions of the embedding:
* Python strings are `String`, Python ints are `Nat` where the source only
  ever holds non-negative values (chunk counts, progress percentages).
* Python `None` / optional dict fields are `Option`.
* Similarity scores (Python floats in cosine-similarity space, spec: values
  in [0,1]) are modelled as `Rat`; the fixed threshold `0.6` is `3/5`.
* `datetime.utcnow()` is an abstract clock value passed in as a `Nat`.
* External collaborators (PDF text extraction, the text splitter, the
  embedding model, the Qdrant index, MongoDB) are modelled by their
  interfaces: fallible calls are `Except String _` outcomes, the vector
  index is explicit state, the MongoDB `upload_jobs` collection is a
  `List Job` in insertion order (the repository creates no unique index on
  `job_id`, so inserts never reject duplicates).
-/

namespace RAGBackend

/-- A LangChain `Document`: page content plus metadata (the source
identifier, per `pdf_loader.pdf_to_documents`). -/
structure Document where
  page_content : String
  metadata : String
  deriving Repr, DecidableEq

/-- Python's `str.isalnum` on a single character decides membership in the
Unicode alphanumeric categories; those tables live outside the program, so
the embedding treats the predicate as an external collaborator and passes it
as a parameter `isalnum`. The sanitizer theorems below hold for an arbitrary
predicate, hence in particular for Python's. -/
def keepChar_with (isalnum : Char → Bool) (c : Char) : Bool :=
  isalnum c || c == '_' || c == '-'

/-- One character of the sanitizer in `VectorStore._get_user_collection_name`
(vector_store.py line 21): `c if c.isalnum() or c in "_-" else "_"`, with
`str.isalnum` abstracted as `isalnum`. -/
def sanitize_char_with (isalnum : Char → Bool) (c : Char) : Char :=
  if keepChar_with isalnum c then c else '_'

/-- `VectorStore._get_user_collection_name` (vector_store.py lines 19-22):
sanitize the user id and wrap it as `user_<safe>_data`, with `str.isalnum`
abstracted as `isalnum`. -/
def get_user_collection_name_with (isalnum : Char → Bool) (user_id : String) : String :=
  "user_" ++ String.mk (user_id.data.map (sanitize_char_with isalnum)) ++ "_data"

/-- A user id made only of characters the sanitizer keeps unchanged
(alphanumeric per `isalnum`, or in the allow-list `"_-"`). -/
def safeId_with (isalnum : Char → Bool) (u : String) : Bool :=
  u.data.all (keepChar_with isalnum)

/-- Python `str.isalnum` restricted to ASCII (`Char.isAlphanum`): on ASCII
characters it coincides with Python's predicate. It instantiates the
abstract predicate for concrete evaluation; every concrete input below
(witnesses, counterexamples, collision pairs) is ASCII, where model and
program agree character for character. -/
def ascii_isalnum (c : Char) : Bool :=
  c.isAlphanum

/-- The collection-name function at the ASCII instance, used wherever the
surrounding code (ingestion, retrieval, the completion update) treats the
name as an opaque routing key or evaluates it on ASCII ids. -/
def get_user_collection_name (user_id : String) : String :=
  get_user_collection_name_with ascii_isalnum user_id

/-! ## Chunking and `add_documents` -/

/-- The chunking loop of `VectorStore.add_documents` (vector_store.py lines
57-61): run the text splitter over each document's page content and wrap
every chunk as a `Document` carrying the parent's metadata. The splitter
itself (`RecursiveCharacterTextSplitter.split_text`) is an external
collaborator and is passed in as a function. -/
def chunkDocuments (split : String → List String) (documents : List Document) : List Document :=
  (documents.map (fun d => (split d.page_content).map (fun c => ⟨c, d.metadata⟩))).flatten

/-- The sizes of the upsert calls `VectorStore.add_documents` issues
(vector_store.py lines 62-74): nothing when no chunks were produced,
otherwise one single `user_store.add_documents` call carrying every chunk.
The source has no batching loop. -/
def add_documents_upsert_sizes (split : String → List String) (documents : List Document) :
    List Nat :=
  let docs := chunkDocuments split documents
  if docs.isEmpty then [] else [docs.length]

/-- The return value of `VectorStore.add_documents`: the number of chunks
produced (0 when none). -/
def add_documents_return (split : String → List String) (documents : List Document) : Nat :=
  (chunkDocuments split documents).length

/-- The keyword parameter names `VectorStore.add_documents` accepts
(vector_store.py line 54), `self` excluded: `def add_documents(self, user_id,
documents)`. -/
def add_documents_param_names : List String :=
  ["user_id", "documents"]

/-- The keyword arguments of the call
`vector_store.add_documents(user_id=..., documents=..., batch_size=100)`
at api.py line 66. -/
def process_pdf_upload_call_kwargs : List String :=
  ["user_id", "documents", "batch_size"]

/-- Python keyword-argument binding for a function without `**kwargs`: the
call binds (rather than raising `TypeError: unexpected keyword argument`)
exactly when every supplied keyword is a declared parameter name. -/
def kwargs_bind (params kwargs : List String) : Bool :=
  kwargs.all (fun k => params.contains k)

/-! ## Vector index state and retrieval -/

/-- One element of the list `VectorStore.retrieve` returns (vector_store.py
lines 93-94): `{"text": ..., "metadata": ..., "score": ...}`. -/
structure RetrievedMatch where
  text : String
  metadata : String
  score : Rat
  deriving Repr, DecidableEq

/-- State of the external Qdrant index, for one fixed query: the existing
collection names (`get_collections`) and, per collection, the stored chunks
together with their cosine-similarity score against the query (the embedding
model is folded into this oracle). -/
structure VSState where
  collections : List String
  data : String → List (Document × Rat)

/-- Ranking relation of the external similarity search: higher score first. -/
def scoreGE (a b : Document × Rat) : Prop :=
  b.2 ≤ a.2

instance : DecidableRel scoreGE := fun a b => inferInstanceAs (Decidable (b.2 ≤ a.2))

instance : IsTotal (Document × Rat) scoreGE :=
  ⟨fun a b => le_total b.2 a.2⟩

instance : IsTrans (Document × Rat) scoreGE :=
  ⟨fun _ _ _ h1 h2 => le_trans h2 h1⟩

/-- Model of the external collaborator
`QdrantVectorStore.similarity_search_with_score(query, k, score_threshold)`
per its interface (spec & Qdrant semantics): rank the collection's chunks by
descending score, keep those at or above the threshold, return at most `k`. -/
def similarity_search_with_score (entries : List (Document × Rat)) (k : Nat) (threshold : Rat) :
    List (Document × Rat) :=
  (((List.insertionSort scoreGE entries).filter (fun e => threshold ≤ e.2)).take k)

/-- `VectorStore.retrieve` (vector_store.py lines 76-95) together with the
number of similarity searches it performed: if the user's collection does not
exist, return `[]` without searching; otherwise search with `k = top_k` and
`score_threshold = 0.6` (the rational `3/5`, written `mkRat 3 5`) and package
the results. The query itself is folded into the score oracle of `VSState`. -/
def retrieveT (st : VSState) (user_id : String) (top_k : Nat) :
    List RetrievedMatch × Nat :=
  let collection_name := get_user_collection_name user_id
  if !(st.collections.contains collection_name) then
    ([], 0)
  else
    let results := similarity_search_with_score (st.data collection_name) top_k (mkRat 3 5)
    (results.map (fun e => ⟨e.1.page_content, e.1.metadata, e.2⟩), 1)

/-- The match list `VectorStore.retrieve` returns. -/
def retrieve (st : VSState) (user_id : String) (top_k : Nat) : List RetrievedMatch :=
  (retrieveT st user_id top_k).1

/-- `VectorStore._ensure_user_collection_exists` (vector_store.py lines
24-41): create the user's collection when absent; return its name. -/
def ensure_user_collection_exists (st : VSState) (user_id : String) : VSState × String :=
  let collection_name := get_user_collection_name user_id
  if st.collections.contains collection_name then (st, collection_name)
  else ({ st with collections := st.collections ++ [collection_name] }, collection_name)

/-- Effect of `VectorStore.add_documents` (vector_store.py lines 54-74) on
the index: chunk the documents, return 0 on no chunks, otherwise ensure the
user's collection exists and upsert every chunk into it. `scoreOf` is the
embedding collaborator folded into similarity space for the fixed query. -/
def vs_add_documents (split : String → List String) (scoreOf : Document → Rat)
    (st : VSState) (user_id : String) (documents : List Document) : VSState × Nat :=
  let docs := chunkDocuments split documents
  if docs.isEmpty then (st, 0)
  else
    let stc := ensure_user_collection_exists st user_id
    ({ stc.1 with
        data := fun n =>
          if n = stc.2 then stc.1.data n ++ docs.map (fun d => (d, scoreOf d))
          else stc.1.data n },
      docs.length)

/-! ## MongoDB job store (`db_service.py`) -/

/-- One document of the `upload_jobs` collection. Fields that
`create_upload_job` does not set and `update_job_status` only sometimes sets
are `Option` (absent = `none`). -/
structure Job where
  job_id : String
  user_id : String
  filename : String
  status : String
  created_at : Nat
  updated_at : Nat
  progress_percent : Option Nat
  collection_name : Option String
  inserted_chunks : Option Nat
  error_message : Option String
  deriving Repr, DecidableEq

/-- `create_upload_job` (db_service.py lines 30-43): `insert_one` of a fresh
document with status `"queued"`, progress 0 and the current time as both
timestamps. The repository creates no unique index on `job_id` (only the
auto-generated `_id` is unique), so the insert appends unconditionally. -/
def create_upload_job (now : Nat) (job_id user_id filename : String) (jobs : List Job) :
    List Job :=
  jobs ++ [{ job_id := job_id, user_id := user_id, filename := filename,
             status := "queued", created_at := now, updated_at := now,
             progress_percent := some 0, collection_name := none,
             inserted_chunks := none, error_message := none }]

/-- The optional keyword arguments of `update_job_status`
(db_service.py lines 45-51), all defaulting to `None`. -/
structure UpdateArgs where
  collection_name : Option String := none
  inserted_chunks : Option Nat := none
  error_message : Option String := none
  progress_percent : Option Nat := none
  deriving Repr, DecidableEq

/-- Python truthiness of an optional string: `None` and `""` are falsy. -/
def py_truthy_str : Option String → Bool
  | some s => !s.isEmpty
  | none => false

/-- The `$set` document built by `update_job_status` (db_service.py lines
54-65), applied to a matched job: `status` and `updated_at` are always set;
`collection_name` and `error_message` only when truthy (`if collection_name:`
/ `if error_message:`); `inserted_chunks` and `progress_percent` when not
`None` (`is not None`). -/
def apply_set (now : Nat) (status : String) (a : UpdateArgs) (j : Job) : Job :=
  { j with
    status := status
    updated_at := now
    collection_name :=
      if py_truthy_str a.collection_name then a.collection_name else j.collection_name
    inserted_chunks :=
      if a.inserted_chunks.isSome then a.inserted_chunks else j.inserted_chunks
    error_message :=
      if py_truthy_str a.error_message then a.error_message else j.error_message
    progress_percent :=
      if a.progress_percent.isSome then a.progress_percent else j.progress_percent }

/-- `update_one` semantics: apply `f` to the first document matching `p`,
leave everything else unchanged; no-op when nothing matches. -/
def updateFirst (p : Job → Bool) (f : Job → Job) : List Job → List Job
  | [] => []
  | j :: js => if p j then f j :: js else j :: updateFirst p f js

/-- `update_job_status` (db_service.py lines 45-71):
`update_one({"job_id": job_id}, {"$set": update_data})`. -/
def update_job_status (now : Nat) (job_id status : String) (a : UpdateArgs)
    (jobs : List Job) : List Job :=
  updateFirst (fun j => j.job_id == job_id) (apply_set now status a) jobs

/-- `get_job_status` (db_service.py lines 73-78): `find_one` on `job_id`. -/
def get_job_status (job_id : String) (jobs : List Job) : Option Job :=
  jobs.find? (fun j => j.job_id == job_id)

/-! ## Background ingestion orchestrator (`api.py` `process_pdf_upload`) -/

/-- Outcomes of the fallible external calls inside the `try` block of
`process_pdf_upload`, in program order: the three `update_job_status`
progress writes, `pdf_to_documents`, the `vector_store.add_documents` call
(which in the shipped code always raises `TypeError`, see
`add_documents_param_names`), and the terminal `completed` write. An `error`
outcome means the call raised before producing any effect. The `failed`
write in the `except` block and the temp-file removal are taken to succeed,
as the claims assume. -/
structure RunEnv where
  now : Nat
  u10 : Except String Unit
  extract : Except String (List Document)
  u30 : Except String Unit
  add : Except String Nat
  u90 : Except String Unit
  ucompleted : Except String Unit

/-- Observable system state threaded through the background task: the job
store, the file system (existence predicate), the number of `os.remove`
calls issued, and the sequence of job-status values successfully written
(the job record's status history, oldest first). -/
structure SysState where
  jobs : List Job
  fileExists : String → Bool
  removeCalls : Nat
  statusTrace : List String

/-- The `try` block of `process_pdf_upload` (api.py lines 55-81): progress
write 10, text extraction, progress write 30, the add-documents call,
progress write 90, then the `completed` write carrying collection name,
inserted count and progress 100. Returns the state reached and the raised
exception, if any (the first failing call aborts the block). -/
def runTry (env : RunEnv) (job_id user_id : String) (s : SysState) :
    SysState × Option String :=
  match env.u10 with
  | .error e => (s, some e)
  | .ok _ =>
    let s1 : SysState :=
      { s with
        jobs := update_job_status env.now job_id "processing"
          { progress_percent := some 10 } s.jobs
        statusTrace := s.statusTrace ++ ["processing"] }
    match env.extract with
    | .error e => (s1, some e)
    | .ok _documents =>
      match env.u30 with
      | .error e => (s1, some e)
      | .ok _ =>
        let s2 : SysState :=
          { s1 with
            jobs := update_job_status env.now job_id "processing"
              { progress_percent := some 30 } s1.jobs
            statusTrace := s1.statusTrace ++ ["processing"] }
        match env.add with
        | .error e => (s2, some e)
        | .ok inserted =>
          match env.u90 with
          | .error e => (s2, some e)
          | .ok _ =>
            let s3 : SysState :=
              { s2 with
                jobs := update_job_status env.now job_id "processing"
                  { progress_percent := some 90 } s2.jobs
                statusTrace := s2.statusTrace ++ ["processing"] }
            match env.ucompleted with
            | .error e => (s3, some e)
            | .ok _ =>
              let s4 : SysState :=
                { s3 with
                  jobs := update_job_status env.now job_id "completed"
                    { collection_name := some (get_user_collection_name user_id)
                      inserted_chunks := some inserted
                      progress_percent := some 100 } s3.jobs
                  statusTrace := s3.statusTrace ++ ["completed"] }
              (s4, none)

/-- `process_pdf_upload` (api.py lines 50-97): run the `try` block; on an
exception write the terminal `failed` status with the exception's message
(`except` block, lines 83-89); in all cases run the `finally` block (lines
90-97), which removes the temp file when it exists. -/
def process_pdf_upload (env : RunEnv) (job_id user_id file_path _filename : String)
    (s0 : SysState) : SysState :=
  let se := runTry env job_id user_id s0
  let s2 : SysState :=
    match se.2 with
    | none => se.1
    | some e =>
      { se.1 with
        jobs := update_job_status env.now job_id "failed"
          { error_message := some e } se.1.jobs
        statusTrace := se.1.statusTrace ++ ["failed"] }
  if s2.fileExists file_path then
    { s2 with
      fileExists := fun p => if p = file_path then false else s2.fileExists p
      removeCalls := s2.removeCalls + 1 }
  else s2

/-- One full job lifecycle as driven by `upload_pdf` + the background task:
the job record is created in status `"queued"` (api.py line 136), the staged
temp file exists, then `process_pdf_upload` runs to completion. -/
def job_lifecycle (env : RunEnv) (job_id user_id file_path filename : String) : SysState :=
  process_pdf_upload env job_id user_id file_path filename
    { jobs := create_upload_job env.now job_id user_id filename []
      fileExists := fun p => p == file_path
      removeCalls := 0
      statusTrace := ["queued"] }

/-- Rank of a job status in the lifecycle order `queued < processing <
terminal`. -/
def statusRank : String → Nat
  | "queued" => 0
  | "processing" => 1
  | "completed" => 2
  | "failed" => 2
  | _ => 3

/-- Terminal job statuses. -/
def isTerminal (s : String) : Bool :=
  s == "completed" || s == "failed"

/-- A status sequence is monotone when consecutive ranks never decrease. -/
def ranksMonotone : List String → Bool
  | [] => true
  | [_] => true
  | a :: b :: rest => Nat.ble (statusRank a) (statusRank b) && ranksMonotone (b :: rest)

/-! ## Helper lemmas -/

/-- The sanitizer leaves a list of kept characters unchanged, whatever the
alphanumeric predicate. -/
theorem map_sanitize_of_all {isalnum : Char → Bool} {l : List Char}
    (h : l.all (keepChar_with isalnum) = true) :
    l.map (sanitize_char_with isalnum) = l := by
  induction l with
  | nil => rfl
  | cons c cs ih =>
    simp only [List.all_cons, Bool.and_eq_true] at h
    simp [sanitize_char_with, h.1, ih h.2]

/-- The character data of a generated collection name, whatever the
alphanumeric predicate. -/
theorem get_user_collection_name_data (isalnum : Char → Bool) (u : String) :
    (get_user_collection_name_with isalnum u).data =
      "user_".data ++ (u.data.map (sanitize_char_with isalnum) ++ "_data".data) := by
  show (("user_" ++ String.mk (u.data.map (sanitize_char_with isalnum))) ++ "_data").data = _
  rw [String.data_append, String.data_append, List.append_assoc]

/-- `update_one` on a collection without a match is a no-op. -/
theorem updateFirst_of_find?_none {p : Job → Bool} {f : Job → Job} :
    ∀ {jobs : List Job}, jobs.find? p = none → updateFirst p f jobs = jobs
  | [], _ => rfl
  | j :: js, h => by
    cases hp : p j with
    | true => simp [List.find?_cons_of_pos _ hp] at h
    | false =>
      rw [List.find?_cons_of_neg _ (by simp [hp])] at h
      simp [updateFirst, hp, updateFirst_of_find?_none h]

/-- `update_one` rewrites exactly the first match, and `find_one` afterwards
sees the rewritten document (provided `f` preserves the predicate). -/
theorem updateFirst_find? {p : Job → Bool} {f : Job → Job}
    (hp : ∀ j, p j = true → p (f j) = true) :
    ∀ {jobs : List Job} {j : Job}, jobs.find? p = some j →
      (updateFirst p f jobs).find? p = some (f j)
  | [], _, h => by simp at h
  | k :: ks, j, h => by
    cases hk : p k with
    | true =>
      rw [List.find?_cons_of_pos _ hk] at h
      cases h
      simp [updateFirst, hk, List.find?_cons_of_pos _ (hp _ hk)]
    | false =>
      rw [List.find?_cons_of_neg _ (by simp [hk])] at h
      have hu : updateFirst p f (k :: ks) = k :: updateFirst p f ks := by
        simp [updateFirst, hk]
      rw [hu, List.find?_cons_of_neg _ (by simp [hk])]
      exact updateFirst_find? hp h

/-- `get_job_status` after `update_job_status` on an existing job returns the
job with the `$set` document applied. -/
theorem get_after_update {now : Nat} {jid status : String} {a : UpdateArgs}
    {jobs : List Job} {j : Job} (h : get_job_status jid jobs = some j) :
    get_job_status jid (update_job_status now jid status a jobs)
      = some (apply_set now status a j) :=
  updateFirst_find? (p := fun j => j.job_id == jid) (f := apply_set now status a)
    (fun _ hpj => hpj) h

/-- A non-empty string is not `isEmpty`. -/
theorem isEmpty_false_of_ne {s : String} (h : s ≠ "") : s.isEmpty = false := by
  cases he : s.isEmpty
  · rfl
  · exact absurd ((String.isEmpty_iff s).mp he) h

/-- The empty string is `isEmpty`. -/
theorem empty_isEmpty : ("" : String).isEmpty = true := rfl

/-- The `try` block touches only the job store and the status trace: the
file system and the remove counter are unchanged. -/
theorem runTry_preserves_fs (env : RunEnv) (jid uid : String) (s0 : SysState) :
    (runTry env jid uid s0).1.fileExists = s0.fileExists ∧
    (runTry env jid uid s0).1.removeCalls = s0.removeCalls := by
  rcases env with ⟨now, u10, ext, u30, add, u90, uc⟩
  cases u10 <;> cases ext <;> cases u30 <;> cases add <;> cases u90 <;> cases uc <;>
    simp [runTry]

/-- A job present in the store is still present (under the same id) after
the `try` block, whichever call fails. -/
theorem runTry_job_exists (env : RunEnv) (jid uid : String) (s0 : SysState)
    {j0 : Job} (hj : get_job_status jid s0.jobs = some j0) :
    ∃ j, get_job_status jid (runTry env jid uid s0).1.jobs = some j := by
  rcases env with ⟨now, u10, ext, u30, add, u90, uc⟩
  cases u10 <;> cases ext <;> cases u30 <;> cases add <;> cases u90 <;> cases uc <;>
    simp only [runTry] <;>
    first
      | exact ⟨j0, hj⟩
      | exact ⟨_, get_after_update hj⟩
      | exact ⟨_, get_after_update (get_after_update hj)⟩
      | exact ⟨_, get_after_update (get_after_update (get_after_update hj))⟩
      | exact ⟨_, get_after_update (get_after_update (get_after_update
          (get_after_update hj)))⟩

/-! ## Claims -/

set_option maxRecDepth 4000 in
/-- C1: the spec says `addDocuments` upserts in batches of at most
`batchSize` (3 batches 100/100/50 on 250 chunks at `batchSize=100`). In the
code, `VectorStore.add_documents` accepts no `batch_size` keyword — so the
actual call at api.py line 66, which passes `batch_size=100`, raises
`TypeError` — and the function body performs one single unbatched upsert:
on input producing 250 chunks it issues one upsert of size 250, not three
batches 100/100/50 (while still reporting 250 chunks). -/
theorem add_documents_unbatched_typeerror :
    kwargs_bind add_documents_param_names process_pdf_upload_call_kwargs = false ∧
    add_documents_upsert_sizes (fun _ => List.replicate 250 "chunk") [⟨"body", "doc"⟩]
      = [250] ∧
    add_documents_return (fun _ => List.replicate 250 "chunk") [⟨"body", "doc"⟩] = 250 ∧
    ([250] : List Nat) ≠ [100, 100, 50] :=
  ⟨by decide, by decide, by decide, by decide⟩

/-- C9: for every single-character alphanumeric predicate — in particular
Python's Unicode `str.isalnum`, whose tables are external to the program —
`_get_user_collection_name` is a pure total function: repeated applications
agree; the result is `user_<m>_data` where `m` is the user id with every
character that is neither alphanumeric nor in the allow-list `"_-"` replaced
by `'_'` and every other character kept; and the map is injective on user
ids made only of kept characters. -/
theorem get_user_collection_name_spec :
    ∀ isalnum : Char → Bool,
      (∀ u : String,
        get_user_collection_name_with isalnum u
          = get_user_collection_name_with isalnum u) ∧
      (∀ u : String, ∃ m : List Char,
        (get_user_collection_name_with isalnum u).data
          = "user_".data ++ (m ++ "_data".data) ∧
        List.Forall₂ (fun cu cm =>
          (keepChar_with isalnum cu = true → cm = cu) ∧
          (keepChar_with isalnum cu = false → cm = '_')) u.data m) ∧
      (∀ u1 u2 : String, safeId_with isalnum u1 = true → safeId_with isalnum u2 = true →
        get_user_collection_name_with isalnum u1 = get_user_collection_name_with isalnum u2 →
        u1 = u2) := by
  intro isalnum
  refine ⟨fun u => rfl, fun u => ⟨u.data.map (sanitize_char_with isalnum),
    get_user_collection_name_data isalnum u, ?_⟩, ?_⟩
  · rw [List.forall₂_map_right_iff, List.forall₂_same]
    intro c _
    refine ⟨fun hk => ?_, fun hk => ?_⟩ <;> simp [sanitize_char_with, hk]
  · intro u1 u2 h1 h2 heq
    have hd := congrArg String.data heq
    rw [get_user_collection_name_data, get_user_collection_name_data] at hd
    have h3 := List.append_cancel_right (List.append_cancel_left hd)
    rw [map_sanitize_of_all h1, map_sanitize_of_all h2] at h3
    exact String.ext h3

/-- Witness for C9 at the ASCII instance and a concrete safe user id. -/
theorem get_user_collection_name_spec_witness :
    safeId_with ascii_isalnum "alice" = true ∧ "alice" = "alice" :=
  ⟨by decide,
    (get_user_collection_name_spec ascii_isalnum).2.2 "alice" "alice"
      (by decide) (by decide) rfl⟩

/-- C10: the sanitization is not injective: the distinct user ids `"a.b"`
and `"a b"` map to the same collection name, and after `add_documents`
ingests a chunk for `"a.b"`, `retrieve` for `"a b"` returns that chunk. -/
theorem user_collection_name_collision :
    "a.b" ≠ "a b" ∧
    get_user_collection_name "a.b" = get_user_collection_name "a b" ∧
    retrieve ((vs_add_documents (fun t => [t]) (fun _ => mkRat 9 10)
        ⟨[], fun _ => []⟩ "a.b" [⟨"secret", "doc1"⟩]).1) "a b" 3
      = [⟨"secret", "doc1", mkRat 9 10⟩] :=
  ⟨by decide, by decide, by decide⟩

/-- C5 counterexample: `create_upload_job` called twice with the same job id
does not fail — it inserts a second record (`insert_one` with no unique index
on `job_id`), leaving two jobs with id `"j1"` in the store. -/
theorem create_upload_job_duplicate_counterexample :
    ((create_upload_job 1 "j1" "u1" "f.pdf"
        (create_upload_job 0 "j1" "u1" "f.pdf" [])).filter
      (fun j => j.job_id == "j1")).length = 2 := by
  decide

/-- C5 (amended): `create_upload_job` appends a fresh record with status
`"queued"`, progress 0 and the current time as both timestamps; when a job
with the same id already exists the insert still succeeds, so the number of
records with that id grows by exactly one (no uniqueness is enforced). -/
theorem create_upload_job_spec :
    ∀ (now : Nat) (jid uid fn : String) (jobs : List Job),
      (∃ j : Job, create_upload_job now jid uid fn jobs = jobs ++ [j] ∧
        j.job_id = jid ∧ j.user_id = uid ∧ j.filename = fn ∧
        j.status = "queued" ∧ j.progress_percent = some 0 ∧
        j.created_at = now ∧ j.updated_at = now ∧
        j.collection_name = none ∧ j.inserted_chunks = none ∧
        j.error_message = none) ∧
      ((create_upload_job now jid uid fn jobs).filter
          (fun j => j.job_id == jid)).length
        = (jobs.filter (fun j => j.job_id == jid)).length + 1 := by
  intro now jid uid fn jobs
  refine ⟨⟨_, rfl, rfl, rfl, rfl, rfl, rfl, rfl, rfl, rfl, rfl, rfl⟩, ?_⟩
  simp [create_upload_job, List.filter_append]

/-- C6 counterexample: the caller supplies `error_message` (the empty
string), yet after the update the job's `error_message` field is still
absent — `update_job_status` drops supplied-but-falsy optional fields, so
not exactly the supplied fields are written. -/
theorem update_job_status_empty_field_counterexample :
    (get_job_status "j1"
        (update_job_status 1 "j1" "failed" { error_message := some "" }
          (create_upload_job 0 "j1" "u1" "f.pdf" []))).map Job.status
      = some "failed" ∧
    (get_job_status "j1"
        (update_job_status 1 "j1" "failed" { error_message := some "" }
          (create_upload_job 0 "j1" "u1" "f.pdf" []))).bind Job.error_message
      = none := by
  refine ⟨by decide, by decide⟩

/-- C6 (amended): on an existing job `update_job_status` always writes
status and the updated-at timestamp; `inserted_chunks` and
`progress_percent` are written exactly when supplied; `collection_name` and
`error_message` are written when supplied non-empty and are left unchanged
when absent or supplied empty (Python truthiness); the identity fields
(job id, user id, filename, created-at) are unchanged; and on an unknown job
id the call leaves the store untouched. -/
theorem update_job_status_spec (now : Nat) (jid status : String) (a : UpdateArgs)
    (jobs : List Job) :
    (get_job_status jid jobs = none →
      update_job_status now jid status a jobs = jobs) ∧
    (∀ j : Job, get_job_status jid jobs = some j →
      ∃ j2 : Job,
        get_job_status jid (update_job_status now jid status a jobs) = some j2 ∧
        j2.status = status ∧ j2.updated_at = now ∧
        j2.job_id = j.job_id ∧ j2.user_id = j.user_id ∧
        j2.filename = j.filename ∧ j2.created_at = j.created_at ∧
        (a.inserted_chunks = none → j2.inserted_chunks = j.inserted_chunks) ∧
        (∀ n, a.inserted_chunks = some n → j2.inserted_chunks = some n) ∧
        (a.progress_percent = none → j2.progress_percent = j.progress_percent) ∧
        (∀ n, a.progress_percent = some n → j2.progress_percent = some n) ∧
        ((a.collection_name = none ∨ a.collection_name = some "") →
          j2.collection_name = j.collection_name) ∧
        (∀ s, a.collection_name = some s → s ≠ "" → j2.collection_name = some s) ∧
        ((a.error_message = none ∨ a.error_message = some "") →
          j2.error_message = j.error_message) ∧
        (∀ s, a.error_message = some s → s ≠ "" → j2.error_message = some s)) := by
  constructor
  · intro h
    exact updateFirst_of_find?_none h
  · intro j hj
    refine ⟨apply_set now status a j, get_after_update hj, rfl, rfl, rfl, rfl, rfl, rfl,
      ?_, ?_, ?_, ?_, ?_, ?_, ?_, ?_⟩
    · intro h; simp [apply_set, h]
    · intro n h; simp [apply_set, h]
    · intro h; simp [apply_set, h]
    · intro n h; simp [apply_set, h]
    · rintro (h | h) <;> simp [apply_set, py_truthy_str, h, empty_isEmpty]
    · intro s h hs; simp [apply_set, py_truthy_str, h, isEmpty_false_of_ne hs]
    · rintro (h | h) <;> simp [apply_set, py_truthy_str, h, empty_isEmpty]
    · intro s h hs; simp [apply_set, py_truthy_str, h, isEmpty_false_of_ne hs]

/-- Witness for C6 at a concrete job and update. -/
theorem update_job_status_spec_witness :
    ∃ j2 : Job,
      get_job_status "j1"
        (update_job_status 5 "j1" "completed"
          { collection_name := some "user_u1_data", inserted_chunks := some 7,
            progress_percent := some 100 }
          (create_upload_job 0 "j1" "u1" "f.pdf" [])) = some j2 ∧
      j2.status = "completed" := by
  obtain ⟨j2, hget, hstatus, -⟩ :=
    (update_job_status_spec 5 "j1" "completed"
      { collection_name := some "user_u1_data", inserted_chunks := some 7,
        progress_percent := some 100 }
      (create_upload_job 0 "j1" "u1" "f.pdf" [])).2 _ rfl
  exact ⟨j2, hget, hstatus⟩

/-- C7: `retrieve` for a user whose collection does not exist returns the
empty match list without error and performs no similarity search. -/
theorem retrieve_no_collection (st : VSState) (user_id : String) (top_k : Nat)
    (h : st.collections.contains (get_user_collection_name user_id) = false) :
    retrieveT st user_id top_k = ([], 0) := by
  have hmem : get_user_collection_name user_id ∉ st.collections := by simpa using h
  simp [retrieveT, hmem]

/-- Witness for C7: a never-ingested user against an empty index. -/
theorem retrieve_no_collection_witness :
    retrieveT ⟨[], fun _ => []⟩ "newuser" 3 = ([], 0) :=
  retrieve_no_collection ⟨[], fun _ => []⟩ "newuser" 3 (by decide)

/-- C8: every match `retrieve` returns scores at least the fixed threshold
0.6 (`mkRat 3 5`), at most `top_k` matches are returned, and the matches
preserve the ranking order of the store (best score first). -/
theorem retrieve_threshold_topk_ranked (st : VSState) (user_id : String) (top_k : Nat) :
    (∀ m ∈ retrieve st user_id top_k, mkRat 3 5 ≤ m.score) ∧
    (retrieve st user_id top_k).length ≤ top_k ∧
    (retrieve st user_id top_k).Pairwise (fun m1 m2 => m2.score ≤ m1.score) := by
  have key : ∀ (l : List (Document × Rat)) (k : Nat),
      (∀ e ∈ similarity_search_with_score l k (mkRat 3 5), mkRat 3 5 ≤ e.2) ∧
      (similarity_search_with_score l k (mkRat 3 5)).length ≤ k ∧
      (similarity_search_with_score l k (mkRat 3 5)).Pairwise scoreGE := by
    intro l k
    unfold similarity_search_with_score
    refine ⟨?_, List.length_take_le _ _, ?_⟩
    · intro e he
      have hef := List.take_subset _ _ he
      exact of_decide_eq_true (List.mem_filter.mp hef).2
    · refine List.Pairwise.sublist (List.take_sublist _ _) ?_
      exact (List.sorted_insertionSort scoreGE l).filter _
  cases hc : st.collections.contains (get_user_collection_name user_id) with
  | false =>
    have hmem : get_user_collection_name user_id ∉ st.collections := by simpa using hc
    have hnil : retrieve st user_id top_k = [] := by
      simp [retrieve, retrieveT, hmem]
    rw [hnil]
    simp
  | true =>
    have hmem : get_user_collection_name user_id ∈ st.collections := by simpa using hc
    have hr : retrieve st user_id top_k =
        (similarity_search_with_score
          (st.data (get_user_collection_name user_id)) top_k (mkRat 3 5)).map
          (fun e => ⟨e.1.page_content, e.1.metadata, e.2⟩) := by
      simp [retrieve, retrieveT, hmem]
    obtain ⟨h1, h2, h3⟩ := key (st.data (get_user_collection_name user_id)) top_k
    rw [hr]
    refine ⟨?_, by simpa using h2, ?_⟩
    · intro m hm
      obtain ⟨e, he, rfl⟩ := List.mem_map.mp hm
      exact h1 e he
    · rw [List.pairwise_map]
      exact h3.imp (fun h => h)

/-- Witness for C8 at a concrete one-chunk store. -/
theorem retrieve_threshold_topk_ranked_witness :
    mkRat 3 5 ≤ (mkRat 9 10) ∧
    (retrieve ⟨["user_u1_data"], fun _ => [(⟨"t", "m"⟩, mkRat 9 10)]⟩ "u1" 3).length ≤ 3 := by
  have h := retrieve_threshold_topk_ranked
    ⟨["user_u1_data"], fun _ => [(⟨"t", "m"⟩, mkRat 9 10)]⟩ "u1" 3
  exact ⟨h.1 ⟨"t", "m", mkRat 9 10⟩ (by decide), h.2.1⟩

/-- C2 counterexample: an exception whose message is the empty string (e.g.
Python `ValueError()` with `str(e) == ""`) marks the job `failed` but stores
nothing in `error_message` — the `if error_message:` truthiness guard in
`update_job_status` drops the supplied empty message, so the error's message
is not stored as the claim states. -/
theorem process_pdf_upload_empty_message_counterexample :
    (get_job_status "j1"
        (process_pdf_upload ⟨1, .ok (), .error "", .ok (), .ok 0, .ok (), .ok ()⟩
          "j1" "u1" "/tmp/f" "f.pdf"
          ⟨create_upload_job 0 "j1" "u1" "f.pdf" [], fun _ => true, 0,
            ["queued"]⟩).jobs).map Job.status = some "failed" ∧
    (get_job_status "j1"
        (process_pdf_upload ⟨1, .ok (), .error "", .ok (), .ok 0, .ok (), .ok ()⟩
          "j1" "u1" "/tmp/f" "f.pdf"
          ⟨create_upload_job 0 "j1" "u1" "f.pdf" [], fun _ => true, 0,
            ["queued"]⟩).jobs).bind Job.error_message = none := by
  refine ⟨by decide, by decide⟩

/-- C2 (amended): whenever any call inside the `try` block raises — the
progress updates, text extraction, the add-documents call, or the completion
update — the background task catches the exception and sets the job to
terminal status `"failed"`; the error's message is stored in
`error_message` whenever it is non-empty (an empty message is dropped by the
truthiness guard). No exception propagates: the embedded task is a total
function into a final state. -/
theorem process_pdf_upload_failure_marks_failed
    (env : RunEnv) (jid uid fp fn e : String) (s0 : SysState) (j0 : Job)
    (hj : get_job_status jid s0.jobs = some j0)
    (he : (runTry env jid uid s0).2 = some e) :
    ∃ j : Job,
      get_job_status jid (process_pdf_upload env jid uid fp fn s0).jobs = some j ∧
      j.status = "failed" ∧
      (e ≠ "" → j.error_message = some e) := by
  obtain ⟨j1, hj1⟩ := runTry_job_exists env jid uid s0 hj
  rcases hrun : runTry env jid uid s0 with ⟨s1, exc⟩
  rw [hrun] at hj1 he
  have hexc : exc = some e := he
  subst hexc
  refine ⟨apply_set env.now "failed" { error_message := some e } j1, ?_, rfl, ?_⟩
  · unfold process_pdf_upload
    rw [hrun]
    have hupd : get_job_status jid
        (update_job_status env.now jid "failed" { error_message := some e }
          (s1, some e).1.jobs)
        = some (apply_set env.now "failed" { error_message := some e } j1) :=
      get_after_update hj1
    dsimp only
    split
    · exact hupd
    · exact hupd
  · intro hne
    simp [apply_set, py_truthy_str, isEmpty_false_of_ne hne]

/-- Witness for C2 at a concrete failing extraction. -/
theorem process_pdf_upload_failure_marks_failed_witness :
    ∃ j : Job,
      get_job_status "j1"
        (process_pdf_upload ⟨1, .ok (), .error "boom", .ok (), .ok 0, .ok (), .ok ()⟩
          "j1" "u1" "/tmp/f" "f.pdf"
          ⟨create_upload_job 0 "j1" "u1" "f.pdf" [], fun _ => true, 0,
            ["queued"]⟩).jobs = some j ∧
      j.status = "failed" ∧
      ("boom" ≠ "" → j.error_message = some "boom") :=
  process_pdf_upload_failure_marks_failed
    ⟨1, .ok (), .error "boom", .ok (), .ok 0, .ok (), .ok ()⟩
    "j1" "u1" "/tmp/f" "f.pdf" "boom"
    ⟨create_upload_job 0 "j1" "u1" "f.pdf" [], fun _ => true, 0, ["queued"]⟩
    _ rfl rfl

/-- C3: on every exit path of the background task — success or any raised
error — the staged temp file, present at entry, is deleted exactly once:
afterwards it no longer exists and exactly one additional remove call was
issued. -/
theorem process_pdf_upload_cleanup
    (env : RunEnv) (jid uid fp fn : String) (s0 : SysState)
    (hex : s0.fileExists fp = true) :
    (process_pdf_upload env jid uid fp fn s0).fileExists fp = false ∧
    (process_pdf_upload env jid uid fp fn s0).removeCalls = s0.removeCalls + 1 := by
  obtain ⟨hfe, hrc⟩ := runTry_preserves_fs env jid uid s0
  rcases hrun : runTry env jid uid s0 with ⟨s1, exc⟩
  rw [hrun] at hfe hrc
  dsimp only at hfe hrc
  unfold process_pdf_upload
  rw [hrun]
  cases exc with
  | none => simp [hfe, hrc, hex]
  | some e => simp [hfe, hrc, hex]

/-- Witness for C3 at a concrete successful run. -/
theorem process_pdf_upload_cleanup_witness :
    (process_pdf_upload ⟨1, .ok (), .ok [⟨"text", "src"⟩], .ok (), .ok 3, .ok (), .ok ()⟩
        "j1" "u1" "/tmp/f" "f.pdf"
        ⟨create_upload_job 0 "j1" "u1" "f.pdf" [], fun p => p == "/tmp/f", 0,
          ["queued"]⟩).fileExists "/tmp/f" = false ∧
    (process_pdf_upload ⟨1, .ok (), .ok [⟨"text", "src"⟩], .ok (), .ok 3, .ok (), .ok ()⟩
        "j1" "u1" "/tmp/f" "f.pdf"
        ⟨create_upload_job 0 "j1" "u1" "f.pdf" [], fun p => p == "/tmp/f", 0,
          ["queued"]⟩).removeCalls = 0 + 1 :=
  process_pdf_upload_cleanup
    ⟨1, .ok (), .ok [⟨"text", "src"⟩], .ok (), .ok 3, .ok (), .ok ()⟩
    "j1" "u1" "/tmp/f" "f.pdf"
    ⟨create_upload_job 0 "j1" "u1" "f.pdf" [], fun p => p == "/tmp/f", 0, ["queued"]⟩
    (by decide)

/-- C4: over every possible run of a job's lifecycle (any combination of
step outcomes), the observable status sequence is monotone through
`queued ≤ processing ≤ terminal`, starts at `queued`, never revisits
`queued`, contains exactly one terminal status, and that terminal status is
the last one — no transition follows it. -/
theorem job_status_lifecycle_monotone :
    ∀ (env : RunEnv) (jid uid fp fn : String),
      ranksMonotone (job_lifecycle env jid uid fp fn).statusTrace = true ∧
      (job_lifecycle env jid uid fp fn).statusTrace.head? = some "queued" ∧
      ((job_lifecycle env jid uid fp fn).statusTrace.filter
        (fun s => s == "queued")).length = 1 ∧
      ((job_lifecycle env jid uid fp fn).statusTrace.filter isTerminal).length = 1 ∧
      (job_lifecycle env jid uid fp fn).statusTrace.getLast?.map isTerminal
        = some true := by
  intro env jid uid fp fn
  rcases env with ⟨now, u10, ext, u30, add, u90, uc⟩
  cases u10 <;> cases ext <;> cases u30 <;> cases add <;> cases u90 <;> cases uc <;>
    simp [job_lifecycle, process_pdf_upload, runTry, create_upload_job,
      ranksMonotone, statusRank, isTerminal]

end RAGBackend
